import Mathlib

/-!
Verification of the backend lifecycle supervisor of `maxali/nodejs-caddy`.

The repository is a Caddy HTTP handler that lazily starts a Node.js backend
(a spawned `node` process in the process variants, a Docker container in
`nodejs.go`), proxies requests to it, and stops it after an idle timeout.
This file shallowly embeds the state-manipulating parts of that code:
external effects (Docker API calls, `cmd.Start`, TCP dials, the clock, the
random stream) are passed in explicitly as oracle parameters, and each Go
function becomes a pure Lean function on an explicit state record.
-/

namespace NodejsCaddy

/-! ## Request forwarding (`ServeHTTP`, src/nodejs.go)

`ServeHTTP` builds the outbound request as
`http.NewRequestWithContext(r.Context(), r.Method, n.serverAddr+r.URL.Path, r.Body)`
and then assigns `proxyReq.Header = r.Header`.  An inbound request is modelled
by its method, URL path, raw query string, header list and body stream. -/

structure InboundRequest where
  method : String
  path : String
  rawQuery : String
  headers : List (String × String)
  body : List String
deriving DecidableEq

structure OutboundRequest where
  method : String
  url : String
  headers : List (String × String)
  body : List String
deriving DecidableEq

/-- The proxy request built by `ServeHTTP` (src/nodejs.go:189-193): the target
URL is `serverAddr + r.URL.Path` (Go's `URL.Path` excludes the query string),
the header map is assigned wholesale, and the body reader is passed through. -/
def mkProxyRequest (serverAddr : String) (r : InboundRequest) : OutboundRequest :=
  { method := r.method
    url := serverAddr ++ r.path
    headers := r.headers
    body := r.body }

/-- Modelled from the spec's words, for comparison: the target URL the spec
describes, "the backend address followed by the full request path and query". -/
def specTargetURL (serverAddr : String) (r : InboundRequest) : String :=
  serverAddr ++ r.path ++ (if r.rawQuery = "" then "" else "?" ++ r.rawQuery)

/-! ## Docker-variant state (`Nodejs` struct, src/nodejs.go)

The mutable fields touched by the lifecycle code.  Go zero values give the
initial state: empty strings, zero times.  `time.Time` values are modelled as
natural numbers.  The outcomes of the external Docker API calls made by one
`startServer`/`stopServer` invocation are an explicit `DockerWorld`. -/

structure NState where
  port : Nat
  containerID : String
  serverAddr : String
  lastActive : Nat
  timeout : Nat
deriving DecidableEq

/-- Outcomes of the external calls one start/stop attempt can make:
`newDockerClient`, `CreateContainer`, `StartContainer`, `StopContainer`,
`RemoveContainer`; `cid` is the container ID the daemon would assign. -/
structure DockerWorld where
  clientOk : Bool
  createOk : Bool
  startOk : Bool
  cid : String
  stopOk : Bool
  removeOk : Bool
deriving DecidableEq

/-- `startServer` (src/nodejs.go:80-134).  Each failed external call returns an
error before any field is assigned; on success `containerID` and `serverAddr`
are set (the returned `Bool` is `true` when an error is returned). -/
def startServer (w : DockerWorld) (s : NState) : NState × Bool :=
  if !w.clientOk then (s, true)
  else if !w.createOk then (s, true)
  else if !w.startOk then (s, true)
  else ({ s with containerID := w.cid,
                 serverAddr := "http://localhost:" ++ toString s.port }, false)

/-- `stopServer` (src/nodejs.go:136-168).  Each failed external call logs and
returns early; only after both `StopContainer` and `RemoveContainer` succeed is
`containerID` cleared.  The Go function returns no error in any case, and never
touches `serverAddr`. -/
def stopServer (w : DockerWorld) (s : NState) : NState :=
  if !w.clientOk then s
  else if !w.stopOk then s
  else if !w.removeOk then s
  else { s with containerID := "" }

/-- One wake-up of `monitorIdleTime` (src/nodejs.go:226-238): under the lock it
stops the server iff `time.Since(lastActive) > timeout`.  Returns the new state
and whether `stopServer` was invoked. -/
def monitorIdleCheck (w : DockerWorld) (now : Nat) (s : NState) : NState × Bool :=
  if s.timeout < now - s.lastActive then (stopServer w s, true) else (s, false)

/-! ## Lifecycle traces (for the address/state invariant)

`nodejs.go` has no explicit state enum: the running/stopped distinction is
`containerID != ""` (that is the test `ServeHTTP` uses).  A reachable state is
the fold of start/stop events over the zero-valued initial state. -/

inductive LifeEvent where
  | startEv (w : DockerWorld)
  | stopEv (w : DockerWorld)
deriving DecidableEq

def lifeStep (s : NState) (e : LifeEvent) : NState :=
  match e with
  | .startEv w => (startServer w s).1
  | .stopEv w => stopServer w s

/-- The Go zero value of the `Nodejs` struct fields (before any start). -/
def initState (port : Nat) : NState :=
  { port := port, containerID := "", serverAddr := "", lastActive := 0, timeout := 0 }

def reach (port : Nat) (tr : List LifeEvent) : NState :=
  tr.foldl lifeStep (initState port)

/-- A start event all of whose external calls succeed. -/
def isSuccessfulStart : LifeEvent → Bool
  | .startEv w => w.clientOk && w.createOk && w.startOk
  | .stopEv _ => false

/-! ### Supporting lemmas -/

lemma localhost_ne_empty (p : Nat) : "http://localhost:" ++ toString p ≠ "" := by
  intro h
  have hl := congrArg String.length h
  rw [String.length_append] at hl
  have h17 : ("http://localhost:" : String).length = 17 := rfl
  have h0 : ("" : String).length = 0 := rfl
  rw [h17, h0] at hl
  omega

lemma stopServer_serverAddr (w : DockerWorld) (s : NState) :
    (stopServer w s).serverAddr = s.serverAddr := by
  unfold stopServer
  split
  · rfl
  split
  · rfl
  split
  · rfl
  · rfl

lemma lifeStep_serverAddr_ne (s : NState) (e : LifeEvent) :
    (lifeStep s e).serverAddr ≠ "" ↔
      (s.serverAddr ≠ "" ∨ isSuccessfulStart e = true) := by
  cases e with
  | startEv w =>
    by_cases h1 : w.clientOk <;> by_cases h2 : w.createOk <;> by_cases h3 : w.startOk <;>
      simp [lifeStep, startServer, isSuccessfulStart, h1, h2, h3, localhost_ne_empty]
  | stopEv w =>
    simp [lifeStep, isSuccessfulStart, stopServer_serverAddr]

lemma foldl_serverAddr_ne (tr : List LifeEvent) :
    ∀ s : NState, (tr.foldl lifeStep s).serverAddr ≠ "" ↔
      (s.serverAddr ≠ "" ∨ ∃ e ∈ tr, isSuccessfulStart e = true) := by
  induction tr with
  | nil => intro s; simp
  | cons e tr ih =>
    intro s
    rw [List.foldl_cons, ih (lifeStep s e), lifeStep_serverAddr_ne]
    simp only [List.mem_cons]
    constructor
    · rintro ((h | h) | ⟨x, hx, hs⟩)
      · exact Or.inl h
      · exact Or.inr ⟨e, Or.inl rfl, h⟩
      · exact Or.inr ⟨x, Or.inr hx, hs⟩
    · rintro (h | ⟨x, (rfl | hx), hs⟩)
      · exact Or.inl (Or.inl h)
      · exact Or.inl (Or.inr hs)
      · exact Or.inr ⟨x, hx, hs⟩

/-! ## Claim theorems (request forwarding, idle reaper, address invariant, stop) -/

/-- For the counterexample: a request carrying a non-empty query string. -/
def reqWithQuery : InboundRequest :=
  { method := "GET", path := "/a", rawQuery := "x=1", headers := [], body := [] }

/-- C1 counterexample: `ServeHTTP` targets `serverAddr + r.URL.Path`, and Go's
`URL.Path` excludes the query string, so for a request with query `x=1` the
outbound URL differs from the spec's "backend address followed by the full
request path and query" — the query string is dropped, not passed through. -/
theorem proxy_target_omits_query :
    (mkProxyRequest "http://localhost:9000" reqWithQuery).url ≠
      specTargetURL "http://localhost:9000" reqWithQuery := by decide

/-- C1 (amended): the outbound request keeps the inbound method, headers and
body, and its URL is the backend address followed by the path alone; whenever
the inbound query string is non-empty the outbound URL differs from the
spec-described full target, i.e. the query is dropped. -/
theorem mkProxyRequest_passthrough (addr : String) (r : InboundRequest) :
    (mkProxyRequest addr r).method = r.method ∧
    (mkProxyRequest addr r).headers = r.headers ∧
    (mkProxyRequest addr r).body = r.body ∧
    (mkProxyRequest addr r).url = addr ++ r.path ∧
    (r.rawQuery ≠ "" → (mkProxyRequest addr r).url ≠ specTargetURL addr r) := by
  refine ⟨rfl, rfl, rfl, rfl, ?_⟩
  intro hq h
  have hl := congrArg String.length h
  simp only [mkProxyRequest, specTargetURL] at hl
  rw [if_neg hq] at hl
  simp only [String.length_append] at hl
  have h1 : ("?" : String).length = 1 := rfl
  omega

/-- Witness for `mkProxyRequest_passthrough` at a concrete request. -/
theorem mkProxyRequest_passthrough_witness :
    (mkProxyRequest "b"
        { method := "GET", path := "/p", rawQuery := "q=2", headers := [], body := [] }).url ≠
      specTargetURL "b"
        { method := "GET", path := "/p", rawQuery := "q=2", headers := [], body := [] } :=
  (mkProxyRequest_passthrough "b" _).2.2.2.2 (by decide)

/-- C2: one wake-up of `monitorIdleTime` leaves the instance untouched whenever
the elapsed time since `lastActive` is within the configured timeout, and it
invokes `stopServer` only when the elapsed time strictly exceeds the timeout. -/
theorem monitorIdle_stops_only_after_timeout (w : DockerWorld) (now : Nat) (s : NState) :
    (now - s.lastActive ≤ s.timeout → monitorIdleCheck w now s = (s, false)) ∧
    ((monitorIdleCheck w now s).2 = true → s.timeout < now - s.lastActive) := by
  unfold monitorIdleCheck
  constructor
  · intro h
    rw [if_neg (by omega)]
  · intro h
    by_cases hlt : s.timeout < now - s.lastActive
    · exact hlt
    · rw [if_neg hlt] at h
      simp at h

/-- Witness for `monitorIdle_stops_only_after_timeout` at a concrete state. -/
theorem monitorIdle_stops_only_after_timeout_witness :
    monitorIdleCheck ⟨true, true, true, "c1", true, true⟩ 0 (initState 9000) =
      (initState 9000, false) :=
  (monitorIdle_stops_only_after_timeout _ 0 _).1 (by decide)

/-- C3 counterexample: starting (all Docker calls succeeding) and then stopping
reaches a state whose `containerID` is empty (the code's "stopped" test in
`ServeHTTP`) while `serverAddr` is still non-empty: `stopServer` clears
`containerID` but never clears `serverAddr`, refuting "address is non-empty iff
the state is Ready; after a stop completes the address is empty again". -/
theorem address_nonempty_after_stop :
    (reach 9000 [.startEv ⟨true, true, true, "abc123", true, true⟩,
                 .stopEv ⟨true, true, true, "abc123", true, true⟩]).containerID = "" ∧
    (reach 9000 [.startEv ⟨true, true, true, "abc123", true, true⟩,
                 .stopEv ⟨true, true, true, "abc123", true, true⟩]).serverAddr ≠ "" := by
  constructor
  · rfl
  · decide

/-- C3 (amended): in every reachable state, `serverAddr` is non-empty iff the
trace contains at least one successful start; before the first start it is
empty, and it stays non-empty forever afterwards — stops do not clear it. -/
theorem serverAddr_nonempty_iff_started (port : Nat) (tr : List LifeEvent) :
    (reach port tr).serverAddr ≠ "" ↔ ∃ e ∈ tr, isSuccessfulStart e = true := by
  rw [reach, foldl_serverAddr_ne tr (initState port)]
  simp [initState]

/-- C7: `stopServer` on an already-stopped instance (`containerID == ""`) is a
no-op whatever the Docker world does — every failing call returns early without
mutating state, and even the all-success path rewrites `containerID` to the
empty string it already holds; a second call is equally a no-op.  The Go
function has no error return value, so no error is produced either time. -/
theorem stopServer_idempotent_on_stopped (w : DockerWorld) (s : NState)
    (h : s.containerID = "") :
    stopServer w s = s ∧ stopServer w (stopServer w s) = s := by
  have key : stopServer w s = s := by
    unfold stopServer
    split
    · rfl
    split
    · rfl
    split
    · rfl
    · cases s
      simp_all
  exact ⟨key, by rw [key, key]⟩

/-- Witness for `stopServer_idempotent_on_stopped` at the zero-valued state. -/
theorem stopServer_idempotent_on_stopped_witness :
    stopServer ⟨true, true, true, "x", true, true⟩ (initState 3000) = initState 3000 ∧
    stopServer ⟨true, true, true, "x", true, true⟩
        (stopServer ⟨true, true, true, "x", true, true⟩ (initState 3000)) = initState 3000 :=
  stopServer_idempotent_on_stopped _ _ rfl

/-! ## Process variant (src/unnamed/part_001)

This variant spawns `node <file>` with `exec.Command`.  The fields of the
`exec.Cmd` that the lifecycle logic inspects are whether the pointer is nil and
the `ProcessState` (nil until `Wait` completes; `Exited()` afterwards). -/

structure ProcCmd where
  processState : Option Bool
deriving DecidableEq

structure PState where
  serverCmd : Option ProcCmd
  serverStopped : Bool
  readyPending : Nat
  serverAddr : String
  port : Nat
deriving DecidableEq

/-- `startServer` of part_001 (lines 89-134): it assigns `n.serverCmd = cmd`,
`n.serverStopped = false` and `n.serverReady.Add(1)` BEFORE calling
`cmd.Start()`; when the spawn fails it returns the error with those fields left
as just written (the returned `Bool` is `true` when an error is returned). -/
def startServerProc (spawnOk : Bool) (s : PState) : PState × Bool :=
  let s1 : PState :=
    { s with serverCmd := some { processState := none },
             serverStopped := false,
             readyPending := s.readyPending + 1 }
  if !spawnOk then (s1, true)
  else ({ s1 with serverAddr := "http://localhost:" ++ toString s.port }, false)

/-- The guard of part_001's `ServeHTTP` (line 311) deciding whether to start:
`n.serverCmd == nil || n.serverStopped ||
 (n.serverCmd.ProcessState != nil && n.serverCmd.ProcessState.Exited())`. -/
def needsStart (s : PState) : Bool :=
  s.serverCmd.isNone || s.serverStopped ||
    (match s.serverCmd with
     | some c =>
       match c.processState with
       | some exited => exited
       | none => false
     | none => false)

/-- The Go zero value of the part_001 `Nodejs` struct fields. -/
def initPState (port : Nat) : PState :=
  { serverCmd := none, serverStopped := false, readyPending := 0,
    serverAddr := "", port := port }

/-- C4: evaluating part_001's `startServer` at the failing input (a spawn
failure on the first request).  The triggering request does receive an error,
but the state is NOT restored: `serverCmd` was already set (and `serverStopped`
cleared, `serverReady` incremented) before `cmd.Start()`, and on that state the
`ServeHTTP` guard `needsStart` is `false` — the next request does not initiate
a fresh start, contradicting "instance returns to Stopped with its state fields
as before the attempt, so the next request initiates a fresh start". -/
theorem spawnFailure_leaves_wedged_state :
    (startServerProc false (initPState 3000)).2 = true ∧
    (startServerProc false (initPState 3000)).1 ≠ initPState 3000 ∧
    needsStart (startServerProc false (initPState 3000)).1 = false := by decide

/-! ## Readiness probe (src/unnamed/part_001, lines 109-127)

The goroutine loops: dial; on success signal `serverReady.Done()` and break;
otherwise sleep 100ms and retry.  `accept k` is whether the dial of attempt `k`
succeeds.  `probeLoop accept fuel k` runs at most `fuel` further attempts
starting from attempt `k`; `none` means the loop is still running after `fuel`
attempts — the loop body contains no timeout check, so success is its only
exit. -/

def probeLoop (accept : Nat → Bool) : Nat → Nat → Option Nat
  | 0, _ => none
  | fuel + 1, k => if accept k then some k else probeLoop accept fuel (k + 1)

/-- C5 counterexample: against a backend that never accepts, the probe loop is
still running after 51 attempts — strictly more than the 50 attempts that fit
in the spec's 5s overall timeout at 100ms per attempt — and has reported no
`NotReady` error: the loop has no overall timeout and never terminates unless
a connection is accepted. -/
theorem probeLoop_no_timeout_counterexample :
    probeLoop (fun _ => false) 51 0 = none := by decide

/-- C5 (amended): the probe loop exits only when a connection is accepted — it
is still running after `fuel` attempts iff every dial so far failed.  There is
no overall-timeout exit and no `NotReady` error; the 5s bound is enforced
separately by `ServeHTTP`'s wait on the readiness `WaitGroup`. -/
theorem probeLoop_none_iff_no_accept (accept : Nat → Bool) (fuel : Nat) :
    ∀ k, (probeLoop accept fuel k = none ↔ ∀ i < fuel, accept (k + i) = false) := by
  induction fuel with
  | zero => intro k; simp [probeLoop]
  | succ fuel ih =>
    intro k
    unfold probeLoop
    by_cases h : accept k
    · rw [if_pos h]
      constructor
      · intro hnone
        exact absurd hnone (by simp)
      · intro hall
        have := hall 0 (Nat.succ_pos fuel)
        rw [Nat.add_zero] at this
        rw [h] at this
        cases this
    · rw [if_neg h]
      rw [ih (k + 1)]
      constructor
      · intro hall i hi
        match i, hi with
        | 0, _ => simpa using h
        | i + 1, hi =>
          have := hall i (by omega)
          rw [show k + 1 + i = k + (i + 1) by omega] at this
          exact this
      · intro hall i hi
        have := hall (i + 1) (by omega)
        rw [show k + (i + 1) = k + 1 + i by omega] at this
        exact this

/-! ## Log rotation (src/unnamed/part_001, lines 169-222)

`rotateLogs` keeps a local `logFileCount`; each tick it closes the current
file, creates a new one, increments the counter, and only when the counter
exceeds 24 calls `deleteOldLogFiles` and resets the counter to 1.
`deleteOldLogFiles` sorts the matching file names ascending and removes
`files[0 .. len-24)`, keeping the lexicographically largest 24. -/

def deleteOldLogFiles (files : List String) : List String :=
  let sorted := files.mergeSort (fun a b => a ≤ b)
  sorted.drop (sorted.length - 24)

structure RotState where
  logFileCount : Nat
  files : List String
deriving DecidableEq

/-- One tick of the `rotateLogs` loop, with the set of existing log files made
explicit: a new file is created, the counter incremented, retention enforced
only when the counter exceeds 24 (and the counter reset to 1). -/
def rotateTick (newFile : String) (s : RotState) : RotState :=
  let files1 := s.files ++ [newFile]
  let c := s.logFileCount + 1
  if 24 < c then { logFileCount := 1, files := deleteOldLogFiles files1 }
  else { logFileCount := c, files := files1 }

/-- For the counterexample: 30 pre-existing log files. -/
def thirtyLogFiles : List String :=
  (List.range 30).map (fun i => "app_server_3000_" ++ toString i ++ ".log")

/-- C6 counterexample: with 30 log files already on disk and the rotation
counter at 0, a rotation tick deletes nothing (the counter reaches 1 ≤ 24) and
leaves 31 files — more than 24 remain after a rotation, refuting "the oldest
files beyond the newest 24 are deleted, so at most 24 files remain after each
rotation".  Retention runs only on every 25th tick of one `rotateLogs` loop. -/
theorem rotation_retention_skipped_counterexample :
    24 < (rotateTick "app_server_3000_30.log"
        { logFileCount := 0, files := thirtyLogFiles }).files.length ∧
    (rotateTick "app_server_3000_30.log"
        { logFileCount := 0, files := thirtyLogFiles }).files.length = 31 := by decide

lemma deleteOldLogFiles_length_le (files : List String) :
    (deleteOldLogFiles files).length ≤ 24 := by
  unfold deleteOldLogFiles
  simp only [List.length_drop, List.length_mergeSort]
  omega

/-- C6 (amended): retention is enforced only on ticks where the running counter
exceeds 24 — i.e. every 25th tick — and on those ticks at most 24 files remain
(the drop keeps the 24 lexicographically largest names) and the counter resets
to 1; on every other tick nothing is deleted and the file list only grows. -/
theorem rotateTick_retention (newFile : String) (s : RotState) :
    (24 ≤ s.logFileCount →
      (rotateTick newFile s).files.length ≤ 24 ∧
      (rotateTick newFile s).logFileCount = 1) ∧
    (s.logFileCount + 1 ≤ 24 →
      rotateTick newFile s =
        { logFileCount := s.logFileCount + 1, files := s.files ++ [newFile] }) := by
  unfold rotateTick
  constructor
  · intro h
    rw [if_pos (by omega)]
    exact ⟨deleteOldLogFiles_length_le _, rfl⟩
  · intro h
    rw [if_neg (by omega)]

/-- Witness for `rotateTick_retention` at a concrete state with counter 24. -/
theorem rotateTick_retention_witness :
    (rotateTick "a.log" { logFileCount := 24, files := [] }).files.length ≤ 24 ∧
    (rotateTick "a.log" { logFileCount := 24, files := [] }).logFileCount = 1 :=
  (rotateTick_retention "a.log" { logFileCount := 24, files := [] }).1 (by decide)

/-! ## Port allocation (`getRandomPort`, src/nodejs.go:284-296)

The Go loop seeds `math/rand` from the clock and, up to 100 times, draws
`port := rand.Intn(max-min+1) + min` and tries `net.Listen("tcp", ":port")`;
the first candidate that binds is returned, else an error after 100 attempts.
The pseudo-random stream is the oracle `randSeq` (attempt `i` draws
`randSeq i % (max-min+1)`, the range reduction `rand.Intn` performs
internally); `free p` is whether binding port `p` succeeds. -/

def getRandomPortAux (randSeq : Nat → Nat) (free : Nat → Bool) (lo hi : Nat) :
    Nat → Nat → Option Nat
  | _, 0 => none
  | i, fuel + 1 =>
    let port := randSeq i % (hi - lo + 1) + lo
    if free port then some port else getRandomPortAux randSeq free lo hi (i + 1) fuel

/-- `getRandomPort(9000, 9999)` as `parseCaddyfile` calls it when no port is
configured (src/nodejs.go:272-279): 100 random candidates in 9000–9999. -/
def getRandomPort (randSeq : Nat → Nat) (free : Nat → Bool) : Option Nat :=
  getRandomPortAux randSeq free 9000 9999 0 100

/-- C8 counterexample: with every port free, the random stream `0,0,…` yields
9005 under the stream `5,5,…` — same free set, different result, so the chosen
port is a function of the random stream, not of which ports are free (and 9005
is not the first free port of the range); moreover under the stream `0,0,…`
with only 9000 busy the allocator fails after 100 attempts even though 9001 is
free — it does not scan the range and does not fail only on exhaustion. -/
theorem getRandomPort_random_counterexample :
    getRandomPort (fun _ => 0) (fun _ => true) = some 9000 ∧
    getRandomPort (fun _ => 5) (fun _ => true) = some 9005 ∧
    getRandomPort (fun _ => 0) (fun p => p != 9000) = none ∧
    (fun _ : Nat => true) 9001 = (fun p : Nat => p != 9000) 9001 := by decide

lemma getRandomPortAux_exhaust (randSeq : Nat → Nat) (free : Nat → Bool)
    (lo hi : Nat) (fuel : Nat) :
    ∀ i, (∀ j < fuel, free (randSeq (i + j) % (hi - lo + 1) + lo) = false) →
      getRandomPortAux randSeq free lo hi i fuel = none := by
  induction fuel with
  | zero => intro i _; rfl
  | succ fuel ih =>
    intro i hall
    unfold getRandomPortAux
    have h0 := hall 0 (Nat.succ_pos fuel)
    rw [Nat.add_zero] at h0
    rw [if_neg (by simp [h0])]
    refine ih (i + 1) (fun j hj => ?_)
    have := hall (j + 1) (by omega)
    rw [show i + (j + 1) = i + 1 + j by omega] at this
    exact this

/-- C8 (amended): the allocator is randomized, not a deterministic scan — it
returns the first *randomly drawn* candidate that binds, and after 100 failed
draws it errors regardless of whether free ports remain in 9000–9999. -/
theorem getRandomPort_first_hit_or_exhaust (randSeq : Nat → Nat) (free : Nat → Bool) :
    (free (randSeq 0 % 1000 + 9000) = true →
      getRandomPort randSeq free = some (randSeq 0 % 1000 + 9000)) ∧
    ((∀ j < 100, free (randSeq j % 1000 + 9000) = false) →
      getRandomPort randSeq free = none) := by
  constructor
  · intro h
    unfold getRandomPort getRandomPortAux
    rw [show 9999 - 9000 + 1 = 1000 by omega] at *
    rw [if_pos h]
  · intro h
    unfold getRandomPort
    refine getRandomPortAux_exhaust randSeq free 9000 9999 100 0 (fun j hj => ?_)
    rw [show 9999 - 9000 + 1 = 1000 by omega, Nat.zero_add]
    exact h j hj

/-- Witness for `getRandomPort_first_hit_or_exhaust` at a concrete stream. -/
theorem getRandomPort_first_hit_or_exhaust_witness :
    getRandomPort (fun _ => 7) (fun _ => true) = some 9007 :=
  (getRandomPort_first_hit_or_exhaust (fun _ => 7) (fun _ => true)).1 (by decide)

/-! ## Serialized `ServeHTTP` entries (src/nodejs.go:170-188)

`serverMutex` totally orders the critical sections of concurrent requests, so
a group of concurrent requests is modelled as a list processed in lock order.
The critical section is: `Lock()`; if `containerID == ""` call
`startServer(true)` (one Runtime-Adapter start invocation) and — on error —
`return` WITHOUT unlocking; update `lastActive`; `Unlock()`.  A caller that
finds the mutex permanently held blocks forever. -/

inductive Outcome where
  | ok (addr : String)
  | startFailed
  | blocked
deriving DecidableEq

/-- One critical-section entry: returns the new state, the caller's outcome,
whether the mutex was left locked (the error-path `return` skips `Unlock`),
and how many times the start sequence was invoked (0 or 1). -/
def serveStep (w : DockerWorld) (now : Nat) (s : NState) :
    NState × Outcome × Bool × Nat :=
  if s.containerID = "" then
    match startServer w s with
    | (s', true) => (s', Outcome.startFailed, true, 1)
    | (s', false) =>
      let s'' := { s' with lastActive := now }
      (s'', Outcome.ok s''.serverAddr, false, 1)
  else
    ({ s with lastActive := now }, Outcome.ok s.serverAddr, false, 0)

/-- Lock-ordered processing of a group of requests: each element of `ws` is the
Docker world one request's start attempt would see.  Once the lock is leaked
every remaining caller blocks forever.  Returns the final state, each caller's
outcome in order, and the total number of start invocations. -/
def serveSeq (now : Nat) : List DockerWorld → NState → Bool → NState × List Outcome × Nat
  | [], s, _ => (s, [], 0)
  | w :: rest, s, locked =>
    if locked then (s, (w :: rest).map (fun _ => Outcome.blocked), 0)
    else
      let r := serveStep w now s
      let q := serveSeq now rest r.1 r.2.2.1
      (q.1, r.2.1 :: q.2.1, r.2.2.2 + q.2.2)

/-- C9: evaluating the serialized `ServeHTTP` model.  Three concurrent requests
arriving while stopped, with the start succeeding: exactly one start invocation
and every caller observes the same address — that much holds.  But at the
failing input (two concurrent requests, container creation failing): the first
caller gets the error while `ServeHTTP` returns WITHOUT releasing
`serverMutex`, so the second caller blocks forever and never observes the
failure — refuting "all callers observe the same resulting address or the same
failure". -/
theorem concurrent_start_failure_blocks :
    serveSeq 5 [⟨true, true, true, "abc123", true, true⟩,
                ⟨true, true, true, "abc123", true, true⟩,
                ⟨true, true, true, "abc123", true, true⟩] (initState 9000) false =
      ({ port := 9000, containerID := "abc123",
         serverAddr := "http://localhost:9000", lastActive := 5, timeout := 0 },
       [Outcome.ok "http://localhost:9000", Outcome.ok "http://localhost:9000",
        Outcome.ok "http://localhost:9000"], 1) ∧
    serveSeq 5 [⟨true, false, true, "", true, true⟩,
                ⟨true, false, true, "", true, true⟩] (initState 9000) false =
      (initState 9000, [Outcome.startFailed, Outcome.blocked], 1) := by decide

/-! ## Log writers (`LogWriter.Write`, src/nodejs.go:27-33)

`Write` trims the chunk (Go `strings.TrimSpace`, Unicode white space: modelled
for the ASCII space class ` \t\n\v\f\r`), emits it through the zap logger only
when the trimmed form is non-empty, and returns `(len(p), nil)` always. -/

def goIsSpace (c : Char) : Bool :=
  c = ' ' || c = '\t' || c = '\n' || c = '\r' || c = Char.ofNat 11 || c = Char.ofNat 12

def trimSpace (p : List Char) : List Char :=
  ((p.dropWhile goIsSpace).reverse.dropWhile goIsSpace).reverse

/-- `LogWriter.Write`: returns the messages emitted to the logger, the reported
byte count `n`, and the returned error. -/
def logWriterWrite (p : List Char) : List (List Char) × Nat × Option String :=
  let message := trimSpace p
  if message = [] then ([], p.length, none)
  else ([message], p.length, none)

/-- C10: for every input chunk `p`, `LogWriter.Write` reports a complete
successful write — it returns `n = len(p)` and a nil error — even when the
whitespace-trimmed content is empty and the chunk is dropped without being
emitted; log capture can never surface an error or short write. -/
theorem logWriterWrite_full_success (p : List Char) :
    (logWriterWrite p).2.1 = p.length ∧
    (logWriterWrite p).2.2 = none ∧
    (trimSpace p = [] → (logWriterWrite p).1 = []) := by
  unfold logWriterWrite
  by_cases h : trimSpace p = []
  · rw [if_pos h]
    exact ⟨rfl, rfl, fun _ => rfl⟩
  · rw [if_neg h]
    exact ⟨rfl, rfl, fun hc => absurd hc h⟩

/-- Witness for `logWriterWrite_full_success` on an all-whitespace chunk. -/
theorem logWriterWrite_full_success_witness :
    (logWriterWrite [' ', '\n', '\t']).2.1 = 3 ∧
    (logWriterWrite [' ', '\n', '\t']).2.2 = none ∧
    (logWriterWrite [' ', '\n', '\t']).1 = [] := by
  have h := logWriterWrite_full_success [' ', '\n', '\t']
  exact ⟨h.1, h.2.1, h.2.2 (by decide)⟩

end NodejsCaddy
